import Mathlib

/-!
Verification development for the SynthArbiter repository.

The repository's source under `src/` consists of the frontend scripts
`app/static/js/main.js` and `app/static/js/config.js`.  The first part of
this file is a shallow embedding of `main.js`: the form submission handler
is modelled as a pure function from its inputs (the textarea value, the
selected framework options, the behaviour of the authentication library and
of the network) to the list of observable effects it performs, and the DOM
rendering helpers (`escapeHtml`, `displayReasoningSteps`, `displayOutcomes`,
`drawChart`) are modelled as pure functions on the response data.

The analysis orchestration pipeline itself is not part of `src/`; the second
part of this file models it from the specification (each such definition is
marked `Modelled from the spec:`).
-/

/-- JavaScript `v || d` for an optional string field of a parsed JSON object:
`undefined` and the empty string are falsy, any other string is truthy. -/
def jsStrOr (v : Option String) (d : String) : String :=
  match v with
  | none => d
  | some s => if s = "" then d else s

/-- JavaScript `v || 0` for an optional numeric field of a parsed JSON object:
`undefined` and `0` are falsy, any other number is truthy. -/
def jsNumOr (v : Option ℚ) : ℚ :=
  match v with
  | none => 0
  | some q => if q = 0 then 0 else q

/-- JavaScript `s.substring(0, n)`: the first `n` characters of `s`
(all of `s` when it is shorter). -/
def jsSubstring (s : String) (n : Nat) : String :=
  ⟨s.data.take n⟩

/-- JavaScript `s.trim()`: leading and trailing whitespace removed. -/
def jsTrim (s : String) : String :=
  ⟨((s.data.dropWhile Char.isWhitespace).reverse.dropWhile Char.isWhitespace).reverse⟩

/-- The per-character replacement table of `escapeHtml` in `main.js`:
`& < > " '` become their HTML entities, every other character is kept. -/
def escapeHtmlChar (c : Char) : String :=
  if c = '&' then "&amp;"
  else if c = '<' then "&lt;"
  else if c = '>' then "&gt;"
  else if c = '"' then "&quot;"
  else if c = '\'' then "&#039;"
  else String.singleton c

/-- Character-list version of `escapeHtml`: `text.replace(/[&<>"']/g, m => map[m])`
replaces each matched character independently, left to right. -/
def escData : List Char → List Char
  | [] => []
  | c :: cs => (escapeHtmlChar c).data ++ escData cs

/-- `escapeHtml` from `main.js`. -/
def escapeHtml (text : String) : String :=
  ⟨escData text.data⟩

/-- The `tradeoffs` object of a response, as the chart code reads it: four
named numeric fields, each possibly absent. -/
structure Tradeoffs where
  utilitarian_harm : Option ℚ
  deontological_duty : Option ℚ
  rights_violation : Option ℚ
  precedent_risk : Option ℚ
deriving DecidableEq

/-- One element of the `outcomes` array of a response, as `displayOutcomes`
reads it: `action` and `consequences` fields, each possibly absent. -/
structure OutcomeData where
  action : Option String
  consequences : Option String
deriving DecidableEq

/-- A parsed JSON response body, restricted to the fields `main.js` reads. -/
structure AnalysisData where
  error : Option String
  recommendation : Option String
  reasoning : Option (List String)
  outcomes : Option (List OutcomeData)
  tradeoffs : Option Tradeoffs
deriving DecidableEq

/-- The JSON body of the analyze request: `JSON.stringify({ scenario, frameworks })`. -/
structure RequestBody where
  scenario : String
  frameworks : List String
deriving DecidableEq

/-- The fixed bar labels of the tradeoff chart in `drawChart`. -/
def chartLabels : List String :=
  ["Utilitarian Harm", "Deontological Duty", "Rights Violation", "Precedent Risk"]

/-- The `data` array of the tradeoff chart in `drawChart`:
`[t.utilitarian_harm || 0, t.deontological_duty || 0, t.rights_violation || 0, t.precedent_risk || 0]`. -/
def chartValues (t : Tradeoffs) : List ℚ :=
  [jsNumOr t.utilitarian_harm, jsNumOr t.deontological_duty,
   jsNumOr t.rights_violation, jsNumOr t.precedent_risk]

/-- JavaScript `\w` (ASCII word character), used by the `\b\w` regex in
`displayOutcomes`. -/
def isWordChar (c : Char) : Bool :=
  c.isAlphanum || c = '_'

/-- `s.replace(/\b\w/g, l => l.toUpperCase())` over a character list: a word
character is uppercased exactly when the previous character is not a word
character (the boolean argument tracks whether it was). -/
def upWordStartsAux : Bool → List Char → List Char
  | _, [] => []
  | prevWord, c :: cs =>
      (if isWordChar c && !prevWord then c.toUpper else c) ::
        upWordStartsAux (isWordChar c) cs

/-- `s.replace(/\b\w/g, l => l.toUpperCase())` from `displayOutcomes`. -/
def upWordStarts (s : String) : String :=
  ⟨upWordStartsAux false s.data⟩

/-- `s.replace(/_/g, ' ')` from `displayOutcomes`. -/
def underscoreToSpace (s : String) : String :=
  String.map (fun c => if c = '_' then ' ' else c) s

/-- The heading text `displayOutcomes` inserts for one outcome:
`escapeHtml((outcome.action || 'unknown_action').replace(/_/g,' ').replace(/\b\w/g, l => l.toUpperCase()))`. -/
def actionDisplay (action : Option String) : String :=
  escapeHtml (upWordStarts (underscoreToSpace (jsStrOr action "unknown_action")))

/-- The truncated consequence variable of `displayOutcomes`:
`(outcome.consequences || 'No analysis available').substring(0, 250)`. -/
def truncatedConsequence (consequences : Option String) : String :=
  jsSubstring (jsStrOr consequences "No analysis available") 250

/-- The consequence paragraph text `displayOutcomes` inserts:
the escaped truncated text, followed by an ellipsis when the truncated
text is longer than 200 characters. -/
def consequenceDisplay (consequences : Option String) : String :=
  escapeHtml (truncatedConsequence consequences) ++
    (if 200 < (truncatedConsequence consequences).length then "..." else "")

/-- The paragraph texts `displayReasoningSteps` inserts, in order:
`escapeHtml(step)` for each step. -/
def reasoningTimeline (steps : List String) : List String :=
  steps.map (fun step => escapeHtml step)

/-- The action/consequence text pairs `displayOutcomes` inserts, in order. -/
def outcomesRendered (outcomes : List OutcomeData) : List (String × String) :=
  outcomes.map (fun oc => (actionDisplay oc.action, consequenceDisplay oc.consequences))

/-- An observable effect of the form submission handler in `main.js`.
DOM writes that only change styling (fade-in classes, animation delays,
scroll position) are kept where they carry information (`scrollToResults`)
and the three pieces of UI state the handler toggles are modelled
explicitly. -/
inductive Event where
  | showError (msg : String)
  | warnNoSession
  | setLoadingHidden (hidden : Bool)
  | setResultsHidden (hidden : Bool)
  | setSubmitDisabled (d : Bool)
  | fetchReq (method url : String) (headers : List (String × String)) (body : RequestBody)
  | setRecommendation (text : String)
  | renderReasoning (steps : List String)
  | renderOutcomes (outcomes : List OutcomeData)
  | drawChart (labels : List String) (values : List ℚ)
  | scrollToResults
deriving DecidableEq

/-- Behaviour of the Amplify authentication library during one submission:
`window.aws_amplify` may be absent, `Auth.currentSession()` may resolve with
a token, or it may reject (caught by the handler). -/
inductive AuthBehavior where
  | absent
  | session (token : String)
  | failure
deriving DecidableEq

/-- Behaviour of the network during one submission: `fetch` may reject,
`response.json()` may reject, or a parsed body arrives together with the
value of `response.ok`. -/
inductive NetBehavior where
  | fetchFailure
  | parseFailure (ok : Bool)
  | response (ok : Bool) (data : AnalysisData)
deriving DecidableEq

/-- The headers the handler always sets before attempting authentication. -/
def baseHeaders : List (String × String) :=
  [("Content-Type", "application/json"), ("Accept", "application/json")]

/-- The try-block that builds `authHeaders`: when `Auth` exists and a session
is available an `Authorization` bearer header is appended; a rejected
`currentSession()` is caught and only logs a warning. -/
def authStep : AuthBehavior → List Event × List (String × String)
  | .absent => ([], baseHeaders)
  | .session token => ([], baseHeaders ++ [("Authorization", "Bearer " ++ token)])
  | .failure => ([Event.warnNoSession], baseHeaders)

/-- The effects of `displayResults(data)`: recommendation text, reasoning
steps, outcomes, the tradeoff chart when `data.tradeoffs` is present
(a present object is always truthy), then scrolling to the results. -/
def displayResultsEvents (data : AnalysisData) : List Event :=
  [Event.setRecommendation (jsStrOr data.recommendation "No recommendation available."),
   Event.renderReasoning (data.reasoning.getD []),
   Event.renderOutcomes (data.outcomes.getD [])] ++
  (match data.tradeoffs with
   | some t => [Event.drawChart chartLabels (chartValues t)]
   | none => []) ++
  [Event.scrollToResults]

/-- The form submission handler of `main.js` as a pure function from its
inputs to the ordered list of effects it performs.  `fetchReq` records that
the HTTP request was issued (also when the network subsequently fails). -/
def handleSubmit (apiBase scenarioRaw : String) (frameworks : List String)
    (auth : AuthBehavior) (net : NetBehavior) : List Event :=
  let scenario := jsTrim scenarioRaw
  if scenario = "" then
    [Event.showError "Please enter a scenario to analyze"]
  else
    let stepAuth := authStep auth
    let attempt :=
      stepAuth.1 ++
      [Event.fetchReq "POST" (apiBase ++ "/api/analyze") stepAuth.2 ⟨scenario, frameworks⟩] ++
      (match net with
       | .fetchFailure =>
           [Event.showError "Failed to connect to analysis service. Please try again."]
       | .parseFailure _ =>
           [Event.showError "Failed to connect to analysis service. Please try again."]
       | .response ok data =>
           if ok then
             displayResultsEvents data
           else
             [Event.showError ("Error: " ++ jsStrOr data.error "Unknown error occurred")])
    [Event.setLoadingHidden false, Event.setResultsHidden true, Event.setSubmitDisabled true] ++
    attempt ++
    [Event.setLoadingHidden true, Event.setResultsHidden false, Event.setSubmitDisabled false]

/-- Whether an event is the issued HTTP request. -/
def Event.isFetch : Event → Bool
  | .fetchReq _ _ _ _ => true
  | _ => false

/-- Whether an event renders analysis results (any effect of `displayResults`). -/
def Event.isRender : Event → Bool
  | .setRecommendation _ => true
  | .renderReasoning _ => true
  | .renderOutcomes _ => true
  | .drawChart _ _ => true
  | .scrollToResults => true
  | _ => false

/-- Whether an event draws the tradeoff chart. -/
def Event.isDraw : Event → Bool
  | .drawChart _ _ => true
  | _ => false

/-- The three pieces of UI state the handler toggles: visibility of the
loading indicator and of the results section, and the submit button's
disabled flag. -/
structure UIState where
  loadingHidden : Bool
  resultsHidden : Bool
  submitDisabled : Bool
deriving DecidableEq

/-- Effect of one event on the UI state. -/
def applyEvent (s : UIState) : Event → UIState
  | .setLoadingHidden h => { s with loadingHidden := h }
  | .setResultsHidden h => { s with resultsHidden := h }
  | .setSubmitDisabled d => { s with submitDisabled := d }
  | _ => s

/-- The UI state after running a list of events from a starting state. -/
def runUI (s : UIState) (evs : List Event) : UIState :=
  evs.foldl applyEvent s

/-- Modelled from the spec: the valid ethical framework values of an
`AnalysisRequest` (the orchestrator is not part of `src/`). -/
def validFrameworks : List String :=
  ["utilitarian", "deontological", "virtue", "rights-based", "contractualist", "care"]

/-- Modelled from the spec: an `AnalysisRequest` as received by the
orchestrator. -/
structure AnalysisRequest where
  scenario : String
  frameworks : List String
deriving DecidableEq

/-- Modelled from the spec: a retrieved passage (text, source identifier,
similarity score, rank). -/
structure Passage where
  text : String
  source : String
  score : ℚ
  rank : Nat
deriving DecidableEq

/-- Modelled from the spec: the fixed four-dimension tradeoff mapping
produced by the reasoning engine, all keys always present. -/
structure TradeoffScores where
  utilitarian_harm : ℚ
  deontological_duty : ℚ
  rights_violation : ℚ
  precedent_risk : ℚ
deriving DecidableEq

/-- Modelled from the spec: the three fixed evaluation scores. -/
structure EvalScores where
  context_relevance : ℚ
  reasoning_coherence : ℚ
  ethical_coverage : ℚ
deriving DecidableEq

/-- Modelled from the spec: one simulated outcome produced by the reasoning
engine. -/
structure PipelineOutcome where
  action : String
  consequences : String
deriving DecidableEq

/-- Modelled from the spec: the structured output of the reasoning engine. -/
structure ReasonOutput where
  steps : List String
  outcomes : List PipelineOutcome
  tradeoffs : TradeoffScores
  recommendation : String
deriving DecidableEq

/-- Modelled from the spec: outcome of the embedding call; a timeout is
treated identically to a failure. -/
inductive EmbedResult where
  | ok (vec : List ℚ)
  | failure
deriving DecidableEq

/-- Modelled from the spec: outcome of the retrieval call. -/
inductive RetrieveResult where
  | ok (passages : List Passage)
  | failure
deriving DecidableEq

/-- Modelled from the spec: outcome of one safety-filter call: a verdict
(safe flag plus rationale), or a safety-service failure. -/
inductive SafetyResult where
  | verdict (safe : Bool) (rationale : String)
  | failure
deriving DecidableEq

/-- Modelled from the spec: outcome of the reasoning call; transport failure,
timeout and malformed output are all fatal and modelled as `failure`. -/
inductive ReasonResult where
  | ok (out : ReasonOutput)
  | failure
deriving DecidableEq

/-- Modelled from the spec: outcome of the evaluator call. -/
inductive EvalResult where
  | ok (scores : EvalScores)
  | failure
deriving DecidableEq

/-- Modelled from the spec: the behaviour of the remote collaborators and the
generated identifier during one pipeline run. -/
structure Env where
  genId : String
  embed : EmbedResult
  retrieve : RetrieveResult
  safetyIn : SafetyResult
  reason : ReasonResult
  safetyOut : SafetyResult
  evaluator : EvalResult
deriving DecidableEq

/-- Modelled from the spec: the pipeline stages, used to record which remote
calls a run performed. -/
inductive Stage where
  | embedS
  | retrieveS
  | safetyInS
  | reasonS
  | safetyOutS
  | evalS
  | persistS
deriving DecidableEq

/-- Modelled from the spec: the response flags of an assembled response. -/
structure OrchFlags where
  unverifiedInput : Bool
  degradedRetrieval : Bool
  degradedEvaluation : Bool
  suppressed : Bool
deriving DecidableEq

/-- Modelled from the spec: a successfully assembled analysis response. -/
structure OrchSuccess where
  analysisId : String
  recommendation : String
  reasoning : List String
  outcomes : List PipelineOutcome
  tradeoffs : TradeoffScores
  evaluation : Option EvalScores
  flags : OrchFlags
deriving DecidableEq

/-- Modelled from the spec: the orchestrator's result taxonomy. -/
inductive OrchResponse where
  | invalidInput (msg : String)
  | contentRejected (rationale : String)
  | reasoningFailed
  | success (resp : OrchSuccess)
deriving DecidableEq

/-- Modelled from the spec: the kind of a persisted record. -/
inductive RecordKind where
  | rejectedInput
  | suppressed
  | normal
deriving DecidableEq

/-- Modelled from the spec: a persisted analysis record, reduced to the
identifier and the kind of record. -/
structure AnalysisRecord where
  id : String
  kind : RecordKind
deriving DecidableEq

/-- Modelled from the spec: the result of one pipeline run: which stages were
invoked (in order), the response, and the records persisted. -/
structure PipelineResult where
  calls : List Stage
  response : OrchResponse
  records : List AnalysisRecord

/-- Modelled from the spec: the orchestrator (§4.1), which is not part of
`src/`.  Steps: validate; embed and retrieve best-effort (a failure of either
yields an empty context set and the degraded-retrieval flag); input safety
check (unsafe verdict aborts with `ContentRejected` and persists a minimal
rejection record; a safety-service failure proceeds with `unverifiedInput`);
reasoning (failure is fatal, nothing persisted); output safety check (unsafe
suppresses the response and persists a suppressed record); evaluation
(failure proceeds with absent scores and the degraded-evaluation flag);
assemble, persist, return. -/
def runPipeline (req : AnalysisRequest) (env : Env) : PipelineResult :=
  if jsTrim req.scenario = "" then
    ⟨[], .invalidInput "scenario must be non-empty", []⟩
  else if ¬ (∀ f ∈ req.frameworks, f ∈ validFrameworks) then
    ⟨[], .invalidInput "unknown framework", []⟩
  else
    let retStep :=
      match env.embed with
      | .failure => ([Stage.embedS], ([] : List Passage), true)
      | .ok _ =>
        match env.retrieve with
        | .failure => ([Stage.embedS, Stage.retrieveS], [], true)
        | .ok ps => ([Stage.embedS, Stage.retrieveS], ps, false)
    match env.safetyIn with
    | .verdict false rationale =>
        ⟨retStep.1 ++ [Stage.safetyInS, Stage.persistS],
         .contentRejected rationale,
         [⟨env.genId, .rejectedInput⟩]⟩
    | _ =>
      let unverified : Bool :=
        match env.safetyIn with
        | .failure => true
        | _ => false
      match env.reason with
      | .failure =>
          ⟨retStep.1 ++ [Stage.safetyInS, Stage.reasonS], .reasoningFailed, []⟩
      | .ok out =>
        match env.safetyOut with
        | .verdict false _ =>
            ⟨retStep.1 ++ [Stage.safetyInS, Stage.reasonS, Stage.safetyOutS, Stage.persistS],
             .contentRejected "Content suppressed by safety filter",
             [⟨env.genId, .suppressed⟩]⟩
        | _ =>
          let evalStep :=
            match env.evaluator with
            | .ok scores => (some scores, false)
            | .failure => (none, true)
          ⟨retStep.1 ++ [Stage.safetyInS, Stage.reasonS, Stage.safetyOutS,
                         Stage.evalS, Stage.persistS],
           .success ⟨env.genId, out.recommendation, out.steps, out.outcomes,
                     out.tradeoffs, evalStep.1,
                     ⟨unverified, retStep.2.2, evalStep.2, false⟩⟩,
           [⟨env.genId, .normal⟩]⟩

theorem jsNumOr_eq_getD (v : Option ℚ) : jsNumOr v = v.getD 0 := by
  cases v with
  | none => rfl
  | some q =>
      by_cases h : q = 0 <;> simp [jsNumOr, h]

theorem no_angle_of_mem {l : List Char} {c : Char}
    (hl : l.all (fun d => !(d == '<') && !(d == '>')) = true) (h : c ∈ l) :
    c ≠ '<' ∧ c ≠ '>' := by
  have hb := List.all_eq_true.mp hl c h
  constructor
  · intro hc; subst hc; simp at hb
  · intro hc; subst hc; simp at hb

theorem escapeHtmlChar_no_angle (x c : Char) (hc : c ∈ (escapeHtmlChar x).data) :
    c ≠ '<' ∧ c ≠ '>' := by
  unfold escapeHtmlChar at hc
  split_ifs at hc with h1 h2 h3 h4 h5
  · exact no_angle_of_mem (by decide) hc
  · exact no_angle_of_mem (by decide) hc
  · exact no_angle_of_mem (by decide) hc
  · exact no_angle_of_mem (by decide) hc
  · exact no_angle_of_mem (by decide) hc
  · have hcx : c = x := by
      simpa [String.singleton] using hc
    subst hcx
    exact ⟨h2, h3⟩

theorem escData_append (l1 l2 : List Char) :
    escData (l1 ++ l2) = escData l1 ++ escData l2 := by
  induction l1 with
  | nil => rfl
  | cons c cs ih => simp [escData, ih]

theorem escData_no_angle (l : List Char) (c : Char) (hc : c ∈ escData l) :
    c ≠ '<' ∧ c ≠ '>' := by
  induction l with
  | nil => simp [escData] at hc
  | cons x xs ih =>
      simp only [escData, List.mem_append] at hc
      rcases hc with hc | hc
      · exact escapeHtmlChar_no_angle x c hc
      · exact ih hc

theorem escapeHtml_append (a b : String) :
    escapeHtml (a ++ b) = escapeHtml a ++ escapeHtml b := by
  cases a with
  | mk la =>
    cases b with
    | mk lb =>
      show String.mk (escData (la ++ lb)) = String.mk (escData la ++ escData lb)
      rw [escData_append]

theorem escapeHtml_no_angle (s : String) (c : Char) (hc : c ∈ (escapeHtml s).data) :
    c ≠ '<' ∧ c ≠ '>' := escData_no_angle s.data c hc

theorem escapeHtml_singleton (c : Char) :
    escapeHtml (String.singleton c) = escapeHtmlChar c := by
  show String.mk ((escapeHtmlChar c).data ++ escData []) = escapeHtmlChar c
  rw [show escData [] = [] from rfl, List.append_nil]

theorem jsSubstring_length (s : String) (n : Nat) :
    (jsSubstring s n).length = min n s.length := by
  show (s.data.take n).length = min n s.data.length
  simp [List.length_take]

theorem displayResults_no_fetch (data : AnalysisData) :
    (displayResultsEvents data).filter Event.isFetch = [] := by
  cases h : data.tradeoffs <;> simp [displayResultsEvents, h, Event.isFetch]

theorem displayResults_not_fetch (data : AnalysisData) (e : Event)
    (he : e ∈ displayResultsEvents data) : e.isFetch = false := by
  cases h : data.tradeoffs <;>
    simp [displayResultsEvents, h] at he <;>
    rcases he with rfl | rfl | rfl | rfl | rfl <;>
    rfl

theorem displayResults_all_render (data : AnalysisData) (e : Event)
    (he : e ∈ displayResultsEvents data) : e.isRender = true := by
  cases h : data.tradeoffs <;>
    simp [displayResultsEvents, h] at he <;>
    rcases he with rfl | rfl | rfl | rfl | rfl <;>
    rfl

theorem runUI_last (s : UIState) (l : List Event) :
    runUI s (l ++ [Event.setLoadingHidden true, Event.setResultsHidden false,
                   Event.setSubmitDisabled false]) =
      ⟨true, false, false⟩ := by
  simp [runUI, List.foldl_append, applyEvent]

/-- Claim C3: for every form submission whose scenario text is empty after
trimming, the request is rejected as invalid input: no call to the analysis
endpoint is made and an error message is shown to the user instead. -/
theorem C3_empty_scenario_rejected (apiBase scenarioRaw : String)
    (frameworks : List String) (auth : AuthBehavior) (net : NetBehavior)
    (hsc : jsTrim scenarioRaw = "") :
    handleSubmit apiBase scenarioRaw frameworks auth net
      = [Event.showError "Please enter a scenario to analyze"]
  ∧ (handleSubmit apiBase scenarioRaw frameworks auth net).filter Event.isFetch = [] := by
  refine ⟨?_, ?_⟩ <;> simp [handleSubmit, hsc, Event.isFetch]

/-- Witness for C3: a whitespace-only textarea value is rejected without a
request. -/
theorem C3_empty_scenario_rejected_witness :
    handleSubmit "https://api.example.com" "   " ["utilitarian"] .absent .fetchFailure
      = [Event.showError "Please enter a scenario to analyze"]
  ∧ (handleSubmit "https://api.example.com" "   " ["utilitarian"] .absent
      .fetchFailure).filter Event.isFetch = [] :=
  C3_empty_scenario_rejected "https://api.example.com" "   " ["utilitarian"] .absent
    .fetchFailure (by decide)

/-- Claim C5: for every form submission with a non-empty trimmed scenario,
the client issues exactly one POST request to the analyze endpoint whose
JSON body is the trimmed scenario string together with the array of selected
framework values, whatever the authentication and network behaviour. -/
theorem C5_single_post (apiBase scenarioRaw : String) (frameworks : List String)
    (auth : AuthBehavior) (net : NetBehavior) (hsc : jsTrim scenarioRaw ≠ "") :
    ∃ headers,
      (handleSubmit apiBase scenarioRaw frameworks auth net).filter Event.isFetch
        = [Event.fetchReq "POST" (apiBase ++ "/api/analyze") headers
            ⟨jsTrim scenarioRaw, frameworks⟩] := by
  refine ⟨(authStep auth).2, ?_⟩
  cases auth <;> cases net <;>
    simp [handleSubmit, hsc, authStep, Event.isFetch] <;>
    (intro a ha
     split at ha
     · exact displayResults_not_fetch _ a ha
     · simp at ha
       subst ha
       rfl)

/-- Witness for C5. -/
theorem C5_single_post_witness :
    ∃ headers,
      (handleSubmit "https://api.example.com" " A dilemma. " ["utilitarian", "care"]
          .absent .fetchFailure).filter Event.isFetch
        = [Event.fetchReq "POST" "https://api.example.com/api/analyze" headers
            ⟨jsTrim " A dilemma. ", ["utilitarian", "care"]⟩] :=
  C5_single_post "https://api.example.com" " A dilemma. " ["utilitarian", "care"]
    .absent .fetchFailure (by decide)

/-- Claim C10: failure to obtain an authentication session never blocks an
analysis submission: when the Amplify library is absent or
`Auth.currentSession()` rejects, the POST request is still issued, with the
base headers only — no `Authorization` header. -/
theorem C10_no_session_still_posts (apiBase scenarioRaw : String)
    (frameworks : List String) (auth : AuthBehavior) (net : NetBehavior)
    (hsc : jsTrim scenarioRaw ≠ "")
    (hauth : auth = AuthBehavior.failure ∨ auth = AuthBehavior.absent) :
    (handleSubmit apiBase scenarioRaw frameworks auth net).filter Event.isFetch
      = [Event.fetchReq "POST" (apiBase ++ "/api/analyze") baseHeaders
          ⟨jsTrim scenarioRaw, frameworks⟩]
  ∧ ∀ p ∈ baseHeaders, p.1 ≠ "Authorization" := by
  refine ⟨?_, by decide⟩
  rcases hauth with rfl | rfl <;> cases net <;>
    simp [handleSubmit, hsc, authStep, Event.isFetch] <;>
    (intro a ha
     split at ha
     · exact displayResults_not_fetch _ a ha
     · simp at ha
       subst ha
       rfl)

/-- Witness for C10: a rejected `currentSession()` call still leads to an
unauthenticated POST. -/
theorem C10_no_session_still_posts_witness :
    (handleSubmit "https://api.example.com" "A dilemma." [] .failure
        .fetchFailure).filter Event.isFetch
      = [Event.fetchReq "POST" "https://api.example.com/api/analyze" baseHeaders
          ⟨jsTrim "A dilemma.", []⟩]
  ∧ ∀ p ∈ baseHeaders, p.1 ≠ "Authorization" :=
  C10_no_session_still_posts "https://api.example.com" "A dilemma." [] .failure
    .fetchFailure (by decide) (Or.inl rfl)

/-- Claim C6: for every HTTP response with a non-ok status, the client shows
an error message built from the body's `error` field (a generic message when
that field is absent or empty) and renders no analysis results; when the
non-ok body cannot be parsed as JSON, a generic message is shown and no
results are rendered either. -/
theorem C6_error_status_shows_error (apiBase scenarioRaw : String)
    (frameworks : List String) (auth : AuthBehavior) (data : AnalysisData)
    (hsc : jsTrim scenarioRaw ≠ "") :
    (Event.showError ("Error: " ++ jsStrOr data.error "Unknown error occurred")
        ∈ handleSubmit apiBase scenarioRaw frameworks auth (.response false data)
      ∧ (handleSubmit apiBase scenarioRaw frameworks auth
          (.response false data)).filter Event.isRender = [])
  ∧ (Event.showError "Failed to connect to analysis service. Please try again."
        ∈ handleSubmit apiBase scenarioRaw frameworks auth (.parseFailure false)
      ∧ (handleSubmit apiBase scenarioRaw frameworks auth
          (.parseFailure false)).filter Event.isRender = []) := by
  refine ⟨⟨?_, ?_⟩, ?_, ?_⟩ <;> cases auth <;>
    simp [handleSubmit, hsc, authStep, Event.isRender]

/-- Witness for C6. -/
theorem C6_error_status_shows_error_witness :
    (Event.showError ("Error: " ++ jsStrOr (some "Rate limit exceeded") "Unknown error occurred")
        ∈ handleSubmit "https://api.example.com" "A dilemma." [] .absent
            (.response false ⟨some "Rate limit exceeded", none, none, none, none⟩)
      ∧ (handleSubmit "https://api.example.com" "A dilemma." [] .absent
          (.response false ⟨some "Rate limit exceeded", none, none, none, none⟩)).filter
            Event.isRender = [])
  ∧ (Event.showError "Failed to connect to analysis service. Please try again."
        ∈ handleSubmit "https://api.example.com" "A dilemma." [] .absent
            (.parseFailure false)
      ∧ (handleSubmit "https://api.example.com" "A dilemma." [] .absent
          (.parseFailure false)).filter Event.isRender = []) :=
  C6_error_status_shows_error "https://api.example.com" "A dilemma." [] .absent
    ⟨some "Rate limit exceeded", none, none, none, none⟩ (by decide)

/-- Claim C9: for every form submission with a non-empty trimmed scenario,
whatever the authentication and network behaviour (success, error status, or
thrown network error), the handler leaves the loading indicator hidden, the
results section visible, and the submit button enabled. -/
theorem C9_ui_always_restored (apiBase scenarioRaw : String)
    (frameworks : List String) (auth : AuthBehavior) (net : NetBehavior)
    (s0 : UIState) (hsc : jsTrim scenarioRaw ≠ "") :
    runUI s0 (handleSubmit apiBase scenarioRaw frameworks auth net)
      = ⟨true, false, false⟩ := by
  simp only [handleSubmit]
  rw [if_neg hsc]
  exact runUI_last s0 _

/-- Witness for C9: even after a thrown network error, starting from the
in-flight UI state, the loading indicator ends hidden, the results section
visible and the submit button enabled. -/
theorem C9_ui_always_restored_witness :
    runUI ⟨false, true, true⟩
        (handleSubmit "https://api.example.com" "A dilemma." ["care"] (.session "tok")
          .fetchFailure)
      = ⟨true, false, false⟩ :=
  C9_ui_always_restored "https://api.example.com" "A dilemma." ["care"] (.session "tok")
    .fetchFailure ⟨false, true, true⟩ (by decide)

/-- Claim C2: for every rendered ok-response carrying a `tradeoffs` object,
exactly one tradeoff chart is drawn, its bars are the four fixed dimensions
`utilitarian_harm`, `deontological_duty`, `rights_violation`,
`precedent_risk` in that order, and the value of a dimension missing from
the `tradeoffs` object is rendered as `0`. -/
theorem C2_chart_four_dimensions (apiBase scenarioRaw : String)
    (frameworks : List String) (auth : AuthBehavior) (data : AnalysisData)
    (t : Tradeoffs) (hsc : jsTrim scenarioRaw ≠ "")
    (ht : data.tradeoffs = some t) :
    (handleSubmit apiBase scenarioRaw frameworks auth
        (.response true data)).filter Event.isDraw
      = [Event.drawChart chartLabels
          [t.utilitarian_harm.getD 0, t.deontological_duty.getD 0,
           t.rights_violation.getD 0, t.precedent_risk.getD 0]]
  ∧ chartLabels
      = ["Utilitarian Harm", "Deontological Duty", "Rights Violation", "Precedent Risk"] := by
  refine ⟨?_, rfl⟩
  cases auth <;>
    simp [handleSubmit, hsc, authStep, displayResultsEvents, ht, chartValues,
          jsNumOr_eq_getD, Event.isDraw]

/-- Witness for C2: a response whose `tradeoffs` object omits
`deontological_duty` draws that bar as 0. -/
theorem C2_chart_four_dimensions_witness :
    (handleSubmit "https://api.example.com" "A dilemma." ["utilitarian"] .absent
        (.response true
          ⟨none, some "Do X", some ["step one"], some [],
           some ⟨some 5, none, some 0, some (-2)⟩⟩)).filter Event.isDraw
      = [Event.drawChart chartLabels
          [(some (5 : ℚ)).getD 0, (none : Option ℚ).getD 0,
           (some (0 : ℚ)).getD 0, (some (-2 : ℚ)).getD 0]]
  ∧ chartLabels
      = ["Utilitarian Harm", "Deontological Duty", "Rights Violation", "Precedent Risk"] :=
  C2_chart_four_dimensions "https://api.example.com" "A dilemma." ["utilitarian"] .absent
    ⟨none, some "Do X", some ["step one"], some [],
     some ⟨some 5, none, some 0, some (-2)⟩⟩
    ⟨some 5, none, some 0, some (-2)⟩ (by decide) rfl

theorem append_data (a b : String) : (a ++ b).data = a.data ++ b.data := by
  cases a
  cases b
  rfl

theorem consequenceDisplay_no_angle (q : Option String) (c : Char)
    (hc : c ∈ (consequenceDisplay q).data) : c ≠ '<' ∧ c ≠ '>' := by
  unfold consequenceDisplay at hc
  rw [append_data] at hc
  rcases List.mem_append.mp hc with h | h
  · exact escapeHtml_no_angle _ c h
  · split at h
    · have hdot : c = '.' := by
        have h3 : c ∈ ['.', '.', '.'] := h
        simpa using h3
      subst hdot
      decide
    · exact absurd (show c ∈ ([] : List Char) from h) (List.not_mem_nil c)

set_option maxRecDepth 8000 in
/-- Counterexample to claim C7 as stated: an outcome whose consequence text
has 201 characters is below the 250-character display limit, so it is shown
untruncated, yet the ellipsis marker is still appended (the code compares the
truncated length against 200, not against the 250-character limit). -/
theorem C7_ellipsis_counterexample :
    ((⟨List.replicate 201 'a'⟩ : String)).length = 201
  ∧ truncatedConsequence (some (⟨List.replicate 201 'a'⟩ : String))
      = (⟨List.replicate 201 'a'⟩ : String)
  ∧ consequenceDisplay (some (⟨List.replicate 201 'a'⟩ : String))
      = (⟨List.replicate 201 'a'⟩ : String) ++ "..." := by
  refine ⟨rfl, ?_, ?_⟩ <;> decide

/-- Claim C7 as amended: the displayed consequence text is at most the first
250 characters of the (defaulted) original — an original of at most 250
characters is displayed in full — and the ellipsis marker is appended exactly
when the original is longer than 200 characters (not 250: originals of 201 to
250 characters are shown in full but still receive the marker). -/
theorem C7_truncation_amended (oc : Option String) :
    (truncatedConsequence oc).length ≤ 250
  ∧ ((jsStrOr oc "No analysis available").length ≤ 250 →
      truncatedConsequence oc = jsStrOr oc "No analysis available")
  ∧ consequenceDisplay oc
      = escapeHtml (truncatedConsequence oc) ++
          (if 200 < (jsStrOr oc "No analysis available").length then "..." else "") := by
  refine ⟨?_, ?_, ?_⟩
  · simp only [truncatedConsequence, jsSubstring_length]
    exact min_le_left _ _
  · intro hle
    have hle2 : (jsStrOr oc "No analysis available").data.length ≤ 250 := hle
    show (⟨(jsStrOr oc "No analysis available").data.take 250⟩ : String)
      = jsStrOr oc "No analysis available"
    rw [List.take_of_length_le hle2]
  · have hiff : (200 < (truncatedConsequence oc).length)
        ↔ (200 < (jsStrOr oc "No analysis available").length) := by
      simp only [truncatedConsequence, jsSubstring_length]
      omega
    simp only [consequenceDisplay]
    rw [if_congr hiff rfl rfl]

/-- Witness for the amended C7 at a short concrete consequence text. -/
theorem C7_truncation_amended_witness :
    (truncatedConsequence (some "abc")).length ≤ 250
  ∧ ((jsStrOr (some "abc") "No analysis available").length ≤ 250 →
      truncatedConsequence (some "abc") = jsStrOr (some "abc") "No analysis available")
  ∧ consequenceDisplay (some "abc")
      = escapeHtml (truncatedConsequence (some "abc")) ++
          (if 200 < (jsStrOr (some "abc") "No analysis available").length
           then "..." else "") :=
  C7_truncation_amended (some "abc")

/-- Claim C8: `escapeHtml` replaces every occurrence of the characters
`& < > " '` by the entities `&amp; &lt; &gt; &quot; &#039;` respectively and
keeps every other character (it distributes over concatenation and acts on
single characters as the replacement table); the reasoning-step texts and the
outcome action/consequence texts inserted into the page markup all pass
through it, so no inserted text contains a raw angle bracket. -/
theorem C8_escapeHtml_sanitizes :
    (∀ a b : String, escapeHtml (a ++ b) = escapeHtml a ++ escapeHtml b)
  ∧ (escapeHtml (String.singleton '&') = "&amp;"
      ∧ escapeHtml (String.singleton '<') = "&lt;"
      ∧ escapeHtml (String.singleton '>') = "&gt;"
      ∧ escapeHtml (String.singleton '"') = "&quot;"
      ∧ escapeHtml (String.singleton '\'') = "&#039;")
  ∧ (∀ c : Char, c ≠ '&' → c ≠ '<' → c ≠ '>' → c ≠ '"' → c ≠ '\'' →
      escapeHtml (String.singleton c) = String.singleton c)
  ∧ (∀ s : String, ∀ c : Char, c ∈ (escapeHtml s).data → c ≠ '<' ∧ c ≠ '>')
  ∧ (∀ steps : List String, ∀ t ∈ reasoningTimeline steps,
      ∀ c ∈ t.data, c ≠ '<' ∧ c ≠ '>')
  ∧ (∀ outcomes : List OutcomeData, ∀ p ∈ outcomesRendered outcomes,
      (∀ c ∈ p.1.data, c ≠ '<' ∧ c ≠ '>') ∧ (∀ c ∈ p.2.data, c ≠ '<' ∧ c ≠ '>')) := by
  refine ⟨escapeHtml_append,
    ⟨by decide, by decide, by decide, by decide, by decide⟩, ?_,
    escapeHtml_no_angle, ?_, ?_⟩
  · intro c h1 h2 h3 h4 h5
    rw [escapeHtml_singleton]
    simp [escapeHtmlChar, h1, h2, h3, h4, h5]
  · intro steps t ht c hc
    rcases List.mem_map.mp ht with ⟨step, _, rfl⟩
    exact escapeHtml_no_angle step c hc
  · intro outcomes p hp
    rcases List.mem_map.mp hp with ⟨oc, _, rfl⟩
    refine ⟨fun c hc => ?_, fun c hc => consequenceDisplay_no_angle _ c hc⟩
    exact escapeHtml_no_angle _ c (by simpa [actionDisplay] using hc)

/-- Witness for C8: escaping distributes over a concrete concatenation and a
character of a concrete escaped string is no angle bracket. -/
theorem C8_escapeHtml_sanitizes_witness :
    (escapeHtml ("ab" ++ "<c") = escapeHtml "ab" ++ escapeHtml "<c")
  ∧ ('a' ∈ (escapeHtml "a<b").data ∧ 'a' ≠ '<' ∧ 'a' ≠ '>') :=
  ⟨C8_escapeHtml_sanitizes.1 "ab" "<c",
   ⟨by decide, C8_escapeHtml_sanitizes.2.2.2.1 "a<b" 'a' (by decide)⟩⟩

/-- Claim C1 (against the spec-modelled orchestrator): an unsafe input safety
verdict always short-circuits the pipeline before the reasoning engine is
invoked — the reasoning stage is never among the performed calls — and, when
the input safety check was actually reached, the run yields a
`ContentRejected` response carrying the verdict's rationale. -/
theorem C1_unsafe_input_short_circuits (req : AnalysisRequest) (env : Env)
    (rationale : String)
    (hverdict : env.safetyIn = SafetyResult.verdict false rationale) :
    Stage.reasonS ∉ (runPipeline req env).calls
  ∧ (Stage.safetyInS ∈ (runPipeline req env).calls →
      (runPipeline req env).response = OrchResponse.contentRejected rationale) := by
  simp only [runPipeline]
  split_ifs <;>
    first
      | simp
      | (rcases hemb : env.embed with v | _ <;>
         rcases hret : env.retrieve with ps | _ <;>
           simp [hverdict, hemb, hret])

/-- Witness for C1: a concrete unsafe-input run performs no reasoning call
and is rejected with the rationale. -/
theorem C1_unsafe_input_short_circuits_witness :
    Stage.reasonS ∉ (runPipeline ⟨"A dilemma.", ["utilitarian"]⟩
        ⟨"id-1", .ok [1], .ok [], .verdict false "harmful request", .failure,
         .verdict true "", .failure⟩).calls
  ∧ (Stage.safetyInS ∈ (runPipeline ⟨"A dilemma.", ["utilitarian"]⟩
        ⟨"id-1", .ok [1], .ok [], .verdict false "harmful request", .failure,
         .verdict true "", .failure⟩).calls →
      (runPipeline ⟨"A dilemma.", ["utilitarian"]⟩
        ⟨"id-1", .ok [1], .ok [], .verdict false "harmful request", .failure,
         .verdict true "", .failure⟩).response
        = OrchResponse.contentRejected "harmful request") :=
  C1_unsafe_input_short_circuits ⟨"A dilemma.", ["utilitarian"]⟩
    ⟨"id-1", .ok [1], .ok [], .verdict false "harmful request", .failure,
     .verdict true "", .failure⟩ "harmful request" rfl

/-- Claim C4 (against the spec-modelled orchestrator): retrieval or embedding
failure never prevents a final recommendation when reasoning succeeds — on a
valid request whose input and output safety checks do not return an unsafe
verdict, a run with a failed embedding or retrieval stage still returns a
success response carrying the reasoning engine's recommendation, with the
`degradedRetrieval` flag set. -/
theorem C4_degraded_retrieval_still_succeeds (req : AnalysisRequest) (env : Env)
    (out : ReasonOutput)
    (hval1 : ¬ jsTrim req.scenario = "")
    (hval2 : ∀ f ∈ req.frameworks, f ∈ validFrameworks)
    (hsafeIn : ∀ r, env.safetyIn ≠ SafetyResult.verdict false r)
    (hreason : env.reason = ReasonResult.ok out)
    (hsafeOut : ∀ r, env.safetyOut ≠ SafetyResult.verdict false r)
    (hdeg : env.embed = EmbedResult.failure ∨ env.retrieve = RetrieveResult.failure) :
    ∃ resp, (runPipeline req env).response = OrchResponse.success resp
      ∧ resp.recommendation = out.recommendation
      ∧ resp.flags.degradedRetrieval = true := by
  have hsin : env.safetyIn = SafetyResult.failure
      ∨ ∃ r, env.safetyIn = SafetyResult.verdict true r := by
    rcases h : env.safetyIn with ⟨b, r⟩ | _
    · cases b
      · exact absurd h (hsafeIn r)
      · exact Or.inr ⟨r, rfl⟩
    · exact Or.inl rfl
  have hsout : env.safetyOut = SafetyResult.failure
      ∨ ∃ r, env.safetyOut = SafetyResult.verdict true r := by
    rcases h : env.safetyOut with ⟨b, r⟩ | _
    · cases b
      · exact absurd h (hsafeOut r)
      · exact Or.inr ⟨r, rfl⟩
    · exact Or.inl rfl
  have hnotex : ¬ ∃ x ∈ req.frameworks, x ∉ validFrameworks := by
    simpa using hval2
  rcases hsin with hsin | ⟨rIn, hsin⟩ <;>
  rcases hsout with hsout | ⟨rOut, hsout⟩ <;>
  rcases hev : env.evaluator with sc | _ <;>
  (rcases hdeg with hd | hd
   · simp [runPipeline, hval1, hnotex, hsin, hreason, hsout, hev, hd]
   · rcases hemb : env.embed with v | _ <;>
       simp [runPipeline, hval1, hnotex, hsin, hreason, hsout, hev, hd, hemb])

/-- Witness for C4: a concrete run with a failed embedding, healthy safety
checks and healthy reasoning returns a degraded-retrieval success. -/
theorem C4_degraded_retrieval_still_succeeds_witness :
    ∃ resp, (runPipeline ⟨"A dilemma.", []⟩
        ⟨"id-2", .failure, .ok [], .verdict true "clean", .ok ⟨["step one"], [],
         ⟨1, 2, 3, 4⟩, "Recommend X"⟩, .verdict true "clean", .failure⟩).response
        = OrchResponse.success resp
      ∧ resp.recommendation = (⟨["step one"], [], ⟨1, 2, 3, 4⟩,
          "Recommend X"⟩ : ReasonOutput).recommendation
      ∧ resp.flags.degradedRetrieval = true :=
  C4_degraded_retrieval_still_succeeds ⟨"A dilemma.", []⟩
    ⟨"id-2", .failure, .ok [], .verdict true "clean", .ok ⟨["step one"], [],
     ⟨1, 2, 3, 4⟩, "Recommend X"⟩, .verdict true "clean", .failure⟩
    ⟨["step one"], [], ⟨1, 2, 3, 4⟩, "Recommend X"⟩
    (by decide) (by decide)
    (by intro r h; simp at h) rfl
    (by intro r h; simp at h) (Or.inl rfl)
